import Mathlib

/-!
Verification of the LinkedIn content generator backend.

This file gives a shallow embedding of the core logic of the repository
(`backend/gemini_utils.py`, `backend/auth.py`) and proves the specified
properties about it.  Time is modelled as an integer clock passed
explicitly (Python reads `time.time()`); the external generation
provider, the JWT signature layer and the bcrypt hasher are modelled as
explicit oracles/abstract functions at the process boundary; the
database is a list of rows threaded through the operations.
-/

/-- State of `RateLimiter` (`gemini_utils.py`): `self.requests` maps a
`user_id` to the list of recorded request timestamps.  A missing key in
the Python dict corresponds to the empty list here, matching the
`if user_id not in self.requests: self.requests[user_id] = []` step. -/
structure RateLimiter where
  requests : Nat → List Int

/-- The freshly constructed limiter (`RateLimiter.__init__`): no
recorded requests. -/
def RateLimiter.init : RateLimiter := ⟨fun _ => []⟩

/-- Embedding of `RateLimiter.is_allowed` (`gemini_utils.py` lines
43-58).  `now` models `time.time()`.  The method first rebinds
`self.requests[user_id]` to the timestamps strictly newer than
`now - window_minutes * 60`, then appends `now` and returns `True` iff
the purged count is strictly below `max_requests`; otherwise it returns
`False` leaving only the purge in place. -/
def RateLimiter.is_allowed (rl : RateLimiter) (user_id max_requests window_minutes : Nat)
    (now : Int) : Bool × RateLimiter :=
  let window_start : Int := now - (window_minutes : Int) * 60
  let purged := (rl.requests user_id).filter (fun req_time => window_start < req_time)
  if purged.length < max_requests then
    (true, ⟨fun k => if k = user_id then purged ++ [now] else rl.requests k⟩)
  else
    (false, ⟨fun k => if k = user_id then purged else rl.requests k⟩)

/-- Helper: when a call is admitted, the identity's stored list becomes
the purged list with `now` appended. -/
theorem is_allowed_admitted_requests (rl : RateLimiter) (uid m w : Nat) (now : Int)
    (h : (rl.is_allowed uid m w now).1 = true) :
    (rl.is_allowed uid m w now).2.requests uid =
      (rl.requests uid).filter (fun t => now - (w : Int) * 60 < t) ++ [now] := by
  revert h
  simp only [RateLimiter.is_allowed]
  split
  · intro _; simp
  · intro h; simp at h

/-- C1: each `is_allowed` call first purges the identity's timestamps
that are not strictly newer than `now - window`, admits (appending
`now`, returning `true`) iff the remaining count is strictly below
`max_requests`, rejects recording nothing otherwise, and never touches
another identity's window.  The final conjunct checks the concrete
scenario: with `max_requests = 3` and a 60-second window, three calls
for identity `0` at seconds 0, 1, 2 succeed, a fourth at second 3
fails, a call for identity `1` still succeeds at second 3, and a call
for identity `0` succeeds again at second 100, after the window has
elapsed. -/
theorem is_allowed_spec (rl : RateLimiter) (uid m w : Nat) (now : Int) :
    ((rl.is_allowed uid m w now).1 = true ↔
        ((rl.requests uid).filter (fun t => now - (w : Int) * 60 < t)).length < m)
    ∧ ((rl.is_allowed uid m w now).2.requests uid =
        if ((rl.requests uid).filter (fun t => now - (w : Int) * 60 < t)).length < m then
          (rl.requests uid).filter (fun t => now - (w : Int) * 60 < t) ++ [now]
        else
          (rl.requests uid).filter (fun t => now - (w : Int) * 60 < t))
    ∧ (∀ v, v ≠ uid → (rl.is_allowed uid m w now).2.requests v = rl.requests v)
    ∧ ((RateLimiter.init.is_allowed 0 3 1 0).1 = true
      ∧ (((RateLimiter.init.is_allowed 0 3 1 0).2).is_allowed 0 3 1 1).1 = true
      ∧ ((((RateLimiter.init.is_allowed 0 3 1 0).2).is_allowed 0 3 1 1).2.is_allowed
            0 3 1 2).1 = true
      ∧ (((((RateLimiter.init.is_allowed 0 3 1 0).2).is_allowed 0 3 1 1).2.is_allowed
            0 3 1 2).2.is_allowed 0 3 1 3).1 = false
      ∧ ((((((RateLimiter.init.is_allowed 0 3 1 0).2).is_allowed 0 3 1 1).2.is_allowed
            0 3 1 2).2.is_allowed 0 3 1 3).2.is_allowed 1 3 1 3).1 = true
      ∧ ((((((RateLimiter.init.is_allowed 0 3 1 0).2).is_allowed 0 3 1 1).2.is_allowed
            0 3 1 2).2.is_allowed 0 3 1 3).2.is_allowed 0 3 1 100).1 = true) := by
  refine ⟨?_, ?_, ?_, by decide⟩
  · simp only [RateLimiter.is_allowed]
    split
    · next h => simpa using h
    · next h => simpa using h
  · simp only [RateLimiter.is_allowed]
    split
    · next h => simp [h]
    · next h => simp [h]
  · intro v hv
    simp only [RateLimiter.is_allowed]
    split
    · simp [hv]
    · simp [hv]

/-- Witness for `is_allowed_spec`: instantiating the frame conjunct at
a concrete state shows a call for identity 0 leaves identity 1's window
untouched. -/
theorem is_allowed_spec_witness :
    (RateLimiter.init.is_allowed 0 3 1 0).2.requests 1 = RateLimiter.init.requests 1 :=
  (is_allowed_spec RateLimiter.init 0 3 1 0).2.2.1 1 (by decide)

/-- A generation request (`PostGenerationRequest` in `gemini_utils.py`).
The pydantic `Literal` constraints on `mood`, `length`, `language` and
the 200-character bound on `topic` restrict which values occur; the
claims under proof range over already-validated requests, so the fields
are plain strings here. -/
structure PostGenerationRequest where
  mood : String
  length : String
  language : String
  topic : String
deriving DecidableEq

/-- Result of one call to the external Gemini provider
(`model.generate_content`), as observed by `generate_linkedin_post`:
a falsy response object, a response carrying `text` (possibly empty),
or one of the exceptions the code catches (`ResourceExhausted`,
`GoogleAPIError`, any other exception). -/
inductive ProviderResult where
  | noResponse
  | ok (text : String)
  | resourceExhausted
  | googleAPIError
  | otherError
deriving DecidableEq

/-- Python's `str.strip()`: drop leading and trailing whitespace.
Implemented structurally over the character list so that it evaluates
by kernel reduction. -/
def pyStrip (s : String) : String :=
  ⟨(((s.data.dropWhile Char.isWhitespace).reverse.dropWhile Char.isWhitespace).reverse)⟩

/-- The `metadata` dict returned on success. -/
structure Metadata where
  mood : String
  length : String
  language : String
  character_count : Nat
deriving DecidableEq

/-- The distinct result dicts `generate_linkedin_post` can return, one
constructor per `success`/`error_type` shape in the source. -/
inductive Outcome where
  | success (post : String) (metadata : Metadata)
  | rateLimited
  | emptyResponse
  | contentTooShort
  | quotaExceeded
  | apiError
  | unexpectedError
deriving DecidableEq

/-- Embedding of `generate_linkedin_post` (`gemini_utils.py` lines
63-191).  The module-level `rate_limiter` is threaded as `rl`; `now`
models the clock; `provider` is the oracle giving what the external
call would produce in this run.  Returns the outcome, the limiter state
after the run, and how many times the provider was invoked.  The rate
check uses the call's default arguments `max_requests = 10`,
`window_minutes = 60`; on rejection the function returns the
`rate_limit` error before the provider is contacted.  Otherwise the
provider result is mapped: falsy response or empty `text` →
`empty_response`; stripped text shorter than 10 characters →
`content_too_short`; `ResourceExhausted` → `quota_exceeded`;
`GoogleAPIError` → `api_error`; any other exception →
`unexpected_error`; otherwise success with the stripped text and the
`mood`/`length`/`language`/`character_count` metadata. -/
def generate_linkedin_post (request : PostGenerationRequest) (user_id : Nat)
    (rl : RateLimiter) (now : Int) (provider : ProviderResult) :
    Outcome × RateLimiter × Nat :=
  let checked := rl.is_allowed user_id 10 60 now
  if checked.1 = false then
    (.rateLimited, checked.2, 0)
  else
    match provider with
    | .noResponse => (.emptyResponse, checked.2, 1)
    | .ok text =>
        if text = "" then (.emptyResponse, checked.2, 1)
        else
          let generated_post := pyStrip text
          if generated_post.length < 10 then (.contentTooShort, checked.2, 1)
          else
            (.success generated_post
              ⟨request.mood, request.length, request.language, generated_post.length⟩,
             checked.2, 1)
    | .resourceExhausted => (.quotaExceeded, checked.2, 1)
    | .googleAPIError => (.apiError, checked.2, 1)
    | .otherError => (.unexpectedError, checked.2, 1)

/-- The dict returned by `get_generation_stats`. -/
structure GenerationStats where
  requests_in_last_hour : Nat
  max_requests_per_hour : Nat
  remaining_requests : Int
deriving DecidableEq

/-- Embedding of `get_generation_stats` (`gemini_utils.py` lines
193-205).  The function reads `rate_limiter.requests.get(user_id, [])`,
filters a fresh list to the last hour, and returns the counts; it never
assigns back into `rate_limiter.requests`, so the limiter state passes
through unchanged. -/
def get_generation_stats (rl : RateLimiter) (user_id : Nat) (now : Int) :
    GenerationStats × RateLimiter :=
  let window_start : Int := now - 60 * 60
  let user_requests := rl.requests user_id
  let recent_requests := user_requests.filter (fun req => window_start < req)
  (⟨recent_requests.length, 10, max 0 (10 - (recent_requests.length : Int))⟩, rl)

/-- A fixed well-formed request, used to instantiate witnesses. -/
def req0 : PostGenerationRequest := ⟨"casual", "short", "english", ""⟩

/-- A limiter state in which identity 0 has exhausted the default quota
of 10 requests at time 0. -/
def rlFull : RateLimiter := ⟨fun k => if k = 0 then [0, 0, 0, 0, 0, 0, 0, 0, 0, 0] else []⟩

/-- C2: whenever the rate limiter rejects, `generate_linkedin_post`
returns the rate-limit outcome and the provider is invoked zero times;
the limiter state still reflects the purge performed by the check. -/
theorem generate_rate_limited_no_provider_call (request : PostGenerationRequest)
    (user_id : Nat) (rl : RateLimiter) (now : Int) (provider : ProviderResult)
    (h : (rl.is_allowed user_id 10 60 now).1 = false) :
    generate_linkedin_post request user_id rl now provider =
      (.rateLimited, (rl.is_allowed user_id 10 60 now).2, 0) := by
  simp [generate_linkedin_post, h]

/-- Witness for `generate_rate_limited_no_provider_call`: with identity
0 exhausted in `rlFull`, a generation run at time 0 is rate limited and
makes no provider call. -/
theorem generate_rate_limited_no_provider_call_witness :
    generate_linkedin_post req0 0 rlFull 0 .noResponse =
      (.rateLimited, (rlFull.is_allowed 0 10 60 0).2, 0) :=
  generate_rate_limited_no_provider_call req0 0 rlFull 0 .noResponse (by decide)

/-- A limiter state in which identity 0 holds a single stale timestamp,
far older than one hour before time 0. -/
def rlStale : RateLimiter := ⟨fun k => if k = 0 then [-10000] else []⟩

/-- Counterexample to C3: `get_generation_stats` does not purge stale
entries from the stored limiter state.  In `rlStale` identity 0 holds
the timestamp `-10000`, which is outside the hour window at time 0 (so
a purge would leave the stored list empty), yet after the stats call
the stored list still contains it. -/
theorem stats_no_purge_cex :
    ((-10000 : Int) ≤ (0 : Int) - 60 * 60)
    ∧ (rlStale.requests 0).filter (fun t => (0 : Int) - 60 * 60 < t) = []
    ∧ (get_generation_stats rlStale 0 0).2.requests 0 = [-10000]
    ∧ ¬ ((get_generation_stats rlStale 0 0).2.requests 0 =
          (rlStale.requests 0).filter (fun t => (0 : Int) - 60 * 60 < t)) := by
  refine ⟨by decide, by decide, by decide, by decide⟩

/-- C3 (amended): `get_generation_stats` is fully read-only.  It
reports `used` as the number of the identity's stored timestamps inside
the one-hour window, `max` as 10 and `remaining` as
`max 0 (10 - used)`, and leaves the rate-limiter state completely
unchanged — stale entries are not purged from storage and no timestamp
is recorded. -/
theorem get_generation_stats_read_only (rl : RateLimiter) (user_id : Nat) (now : Int) :
    (get_generation_stats rl user_id now).2 = rl
    ∧ (get_generation_stats rl user_id now).1.requests_in_last_hour =
        ((rl.requests user_id).filter (fun t => now - 60 * 60 < t)).length
    ∧ (get_generation_stats rl user_id now).1.max_requests_per_hour = 10
    ∧ (get_generation_stats rl user_id now).1.remaining_requests =
        max 0 (10 - (((rl.requests user_id).filter (fun t => now - 60 * 60 < t)).length : Int)) :=
  ⟨rfl, rfl, rfl, rfl⟩

/-- C4: in a run admitted by the rate limiter, whatever the provider
does afterwards (empty text, quota exhaustion, any other failure, or
success), the limiter state returned by `generate_linkedin_post` is
exactly the post-admission state, in which the timestamp `now` recorded
at admission is still present for the identity: the slot is never
reverted. -/
theorem generate_failure_keeps_recorded_timestamp (request : PostGenerationRequest)
    (user_id : Nat) (rl : RateLimiter) (now : Int) (provider : ProviderResult)
    (h : (rl.is_allowed user_id 10 60 now).1 = true) :
    (generate_linkedin_post request user_id rl now provider).2.1 =
      (rl.is_allowed user_id 10 60 now).2
    ∧ now ∈ ((generate_linkedin_post request user_id rl now provider).2.1.requests user_id) := by
  have hstate : (generate_linkedin_post request user_id rl now provider).2.1 =
      (rl.is_allowed user_id 10 60 now).2 := by
    simp only [generate_linkedin_post]
    split
    · rfl
    · cases provider <;> repeat' first | rfl | split
  refine ⟨hstate, ?_⟩
  rw [hstate, is_allowed_admitted_requests rl user_id 10 60 now h]
  exact List.mem_append_right _ (List.mem_singleton.mpr rfl)

/-- Witness for `generate_failure_keeps_recorded_timestamp`: a fresh
limiter admits identity 0 at time 0; after the provider raises quota
exhaustion, the recorded timestamp 0 is still in identity 0's window. -/
theorem generate_failure_keeps_recorded_timestamp_witness :
    (generate_linkedin_post req0 0 RateLimiter.init 0 .resourceExhausted).2.1 =
      (RateLimiter.init.is_allowed 0 10 60 0).2
    ∧ (0 : Int) ∈
        ((generate_linkedin_post req0 0 RateLimiter.init 0 .resourceExhausted).2.1.requests 0) :=
  generate_failure_keeps_recorded_timestamp req0 0 RateLimiter.init 0 .resourceExhausted
    (by decide)

/-- Python `str.lower()` restricted to the ASCII usernames accepted by
the validator, implemented structurally over the character list. -/
def pyLower (s : String) : String := ⟨s.data.map Char.toLower⟩

/-- One character of the username charset `[a-zA-Z0-9_]` from the
`re.match` pattern in `validate_username`. -/
def isUsernameChar (c : Char) : Bool := c.isUpper || c.isLower || c.isDigit || c = '_'

/-- Python's `re.match(r'^[a-zA-Z0-9_]+$', v)` tested for success, as a
predicate on the character list: the pattern matches iff the string is
nonempty and entirely in the charset, or — because `$` without
`re.MULTILINE` also matches just before a final newline — the string is
a nonempty all-charset prefix followed by one trailing newline. -/
def username_re_match (l : List Char) : Bool :=
  match l.getLast? with
  | none => false
  | some c =>
      if c = '\n' then !l.dropLast.isEmpty && l.dropLast.all isUsernameChar
      else l.all isUsernameChar

/-- Embedding of the pydantic `validate_username` validator
(`auth.py` lines 60-68): length 3-50, then the
`re.match(r'^[a-zA-Z0-9_]+$', v)` test (which also accepts one trailing
newline), then lowercased for storage.  An empty string is covered by
the length check, as in the source (`if not v or len(v) < 3`). -/
def validate_username (v : String) : Except String String :=
  if v.length < 3 then .error "Username must be at least 3 characters long"
  else if 50 < v.length then .error "Username must be less than 50 characters"
  else if username_re_match v.data then .ok (pyLower v)
  else .error "Username can only contain letters, numbers, and underscores"

/-- The codepoint intervals matched by Python's `\d` on `str` patterns
(the Unicode decimal-digit category Nd), inclusive on both ends. -/
def ndRanges : List (Nat × Nat) := [
  (48, 57), (1632, 1641), (1776, 1785), (1984, 1993), (2406, 2415),
  (2534, 2543), (2662, 2671), (2790, 2799), (2918, 2927), (3046, 3055),
  (3174, 3183), (3302, 3311), (3430, 3439), (3558, 3567), (3664, 3673),
  (3792, 3801), (3872, 3881), (4160, 4169), (4240, 4249), (6112, 6121),
  (6160, 6169), (6470, 6479), (6608, 6617), (6784, 6793), (6800, 6809),
  (6992, 7001), (7088, 7097), (7232, 7241), (7248, 7257), (42528, 42537),
  (43216, 43225), (43264, 43273), (43472, 43481), (43504, 43513),
  (43600, 43609), (44016, 44025), (65296, 65305), (66720, 66729),
  (68912, 68921), (69734, 69743), (69872, 69881), (69942, 69951),
  (70096, 70105), (70384, 70393), (70736, 70745), (70864, 70873),
  (71248, 71257), (71360, 71369), (71472, 71481), (71904, 71913),
  (72016, 72025), (72784, 72793), (73040, 73049), (73120, 73129),
  (92768, 92777), (92864, 92873), (93008, 93017), (120782, 120831),
  (123200, 123209), (123632, 123641), (125264, 125273), (130032, 130041)]

/-- Python's `\d` character class on `str`: any Unicode decimal digit,
not only the ASCII digits. -/
def pyDigit (c : Char) : Bool :=
  ndRanges.any (fun r => r.1 ≤ c.toNat && c.toNat ≤ r.2)

/-- Embedding of the pydantic `validate_password` validator
(`auth.py` lines 70-83): length 8-128 and at least one uppercase
letter (`re.search(r'[A-Z]', v)`), one lowercase letter
(`re.search(r'[a-z]', v)`) and one digit — where the digit check
`re.search(r'\d', v)` accepts any Unicode decimal digit. -/
def validate_password (v : String) : Except String String :=
  if v.length < 8 then .error "Password must be at least 8 characters long"
  else if 128 < v.length then .error "Password must be less than 128 characters"
  else if ¬ v.data.any Char.isUpper then
    .error "Password must contain at least one uppercase letter"
  else if ¬ v.data.any Char.isLower then
    .error "Password must contain at least one lowercase letter"
  else if ¬ v.data.any pyDigit then
    .error "Password must contain at least one digit"
  else .ok v

/-- Decidable equality for `Except`, so that concrete runs of the
fallible operations can be checked by evaluation. -/
instance {ε α : Type} [DecidableEq ε] [DecidableEq α] : DecidableEq (Except ε α) := fun x y =>
  match x, y with
  | .ok a, .ok b =>
      if h : a = b then .isTrue (congrArg Except.ok h)
      else .isFalse (fun hh => h (Except.ok.inj hh))
  | .error a, .error b =>
      if h : a = b then .isTrue (congrArg Except.error h)
      else .isFalse (fun hh => h (Except.error.inj hh))
  | .ok _, .error _ => .isFalse (fun hh => Except.noConfusion hh)
  | .error _, .ok _ => .isFalse (fun hh => Except.noConfusion hh)

/-- The validated `User` pydantic model of `auth.py`: `username` is
already normalized to lowercase, `password` has passed the strength
checks. -/
structure User where
  username : String
  password : String
deriving DecidableEq

/-- Construction of the `User` model: pydantic runs both field
validators before the endpoint body executes; any failure aborts with a
validation error and nothing else happens. -/
def User.mk_validated (username password : String) : Except String User :=
  match validate_username username, validate_password password with
  | .ok u, .ok p => .ok ⟨u, p⟩
  | .error e, _ => .error e
  | .ok _, .error e => .error e

/-- A row of the `users` table. -/
structure UserRow where
  id : Nat
  username : String
  password_hash : String
  created_at : Int
deriving DecidableEq

/-- The bcrypt hash of a password, modelled abstractly: passlib's
`CryptContext.hash` is an external collaborator whose contract is that
`verify` succeeds exactly for the hashed password.  The tag keeps
distinct passwords at distinct hashes. -/
def pwd_hash (password : String) : String := "bcrypt12" ++ password

/-- An `HTTPException` as raised by the endpoints: status code plus
detail message. -/
structure HTTPError where
  status_code : Nat
  detail : String
deriving DecidableEq

/-- Failure of the signup path: either a pydantic validation error
(raised before the endpoint body runs) or an `HTTPException` raised by
the endpoint itself. -/
inductive CreateUserError where
  | validationError (msg : String)
  | httpError (status_code : Nat) (detail : String)
deriving DecidableEq

/-- The `UserResponse` model returned by signup. -/
structure UserResponse where
  username : String
  message : String
deriving DecidableEq

/-- Embedding of the `signup` endpoint body (`auth.py` lines 97-132)
for an already-validated `User`.  The `SELECT username FROM users WHERE
username = %s` existence check runs against the stored (lowercase)
username; a hit raises 400 before any insert, otherwise the new row
with the hashed password is inserted. -/
def signup (db : List UserRow) (next_id : Nat) (now : Int) (user : User) :
    Except HTTPError UserResponse × List UserRow :=
  if db.any (fun row => row.username = user.username) then
    (.error ⟨400, "Username already exists"⟩, db)
  else
    (.ok ⟨user.username, "User created successfully"⟩,
     db ++ [⟨next_id, user.username, pwd_hash user.password, now⟩])

/-- The full create-user path: pydantic validation of the request body,
then the `signup` endpoint body.  A validation failure returns before
any storage access, leaving the table untouched. -/
def create_user (db : List UserRow) (next_id : Nat) (now : Int)
    (username password : String) : Except CreateUserError UserResponse × List UserRow :=
  match User.mk_validated username password with
  | .error e => (.error (.validationError e), db)
  | .ok user =>
      match signup db next_id now user with
      | (.error e, db2) => (.error (.httpError e.status_code e.detail), db2)
      | (.ok r, db2) => (.ok r, db2)

/-- The claim set of a JWT issued or checked by `auth.py`: `sub`,
`user_id`, `type` may be absent in an arbitrary token, `exp` and `iat`
are the registered timestamp claims. -/
structure TokenPayload where
  sub : Option String
  user_id : Option Nat
  exp : Int
  iat : Int
  type : Option String
deriving DecidableEq

/-- A token string as seen by PyJWT: either a well-formed JWT carrying
a payload and signed under some key, or a malformed string. -/
inductive TokenString where
  | signed (payload : TokenPayload) (key : String)
  | malformed
deriving DecidableEq

/-- Embedding of `create_access_token` (`auth.py` lines 135-143): the
caller's claims (`sub`, `user_id`) are extended with
`exp = now + expire_minutes * 60`, `iat = now` and `type = "access"`,
and the result is signed with the configured secret. -/
def create_access_token (sub : String) (user_id : Nat) (secret : String)
    (expire_minutes : Int) (now : Int) : TokenString :=
  .signed ⟨some sub, some user_id, now + expire_minutes * 60, now, some "access"⟩ secret

/-- How PyJWT classifies a rejected token: `jwt.ExpiredSignatureError`
versus any other `jwt.PyJWTError`. -/
inductive DecodeError where
  | expiredSignature
  | invalidToken
deriving DecidableEq

/-- The contract of `jwt.decode(token, key, algorithms=[...])`:
a malformed token or a signature made under a different key raises a
generic `PyJWTError`; with a verified signature, an `exp` at or before
the current time raises `ExpiredSignatureError`; otherwise the payload
is returned. -/
def jwt_decode (token : TokenString) (key : String) (now : Int) :
    Except DecodeError TokenPayload :=
  match token with
  | .malformed => .error .invalidToken
  | .signed payload k =>
      if k = key then
        if payload.exp ≤ now then .error .expiredSignature
        else .ok payload
      else .error .invalidToken

/-- The identity dict returned by `get_current_user`. -/
structure Identity where
  username : String
  user_id : Nat
deriving DecidableEq

/-- Embedding of `get_current_user` (`auth.py` lines 181-206): decode
the token under the configured secret; an expired signature maps to 401
"Token has expired", any other decode failure to the 401 credentials
exception; a decoded payload is rejected with the same credentials
exception when `sub` or `user_id` is missing or `type` is not
"access". -/
def get_current_user (secret : String) (now : Int) (token : TokenString) :
    Except HTTPError Identity :=
  match jwt_decode token secret now with
  | .error .expiredSignature => .error ⟨401, "Token has expired"⟩
  | .error .invalidToken => .error ⟨401, "Could not validate credentials"⟩
  | .ok payload =>
      match payload.sub, payload.user_id with
      | some username, some uid =>
          if payload.type = some "access" then .ok ⟨username, uid⟩
          else .error ⟨401, "Could not validate credentials"⟩
      | some _, none => .error ⟨401, "Could not validate credentials"⟩
      | none, _ => .error ⟨401, "Could not validate credentials"⟩

/-- C6: `get_current_user` accepts a token and returns the identity
`(sub, user_id)` iff the token is signed under the configured secret,
its expiry lies strictly in the future, its `type` claim is `"access"`
and its `sub` and `user_id` claims are present.  Otherwise it rejects:
a token signed under the secret whose expiry has passed (including one
issued with a negative ttl) gets the expiry-classified 401, a token
signed under a different key or malformed gets the invalid-classified
401, and every rejection carries the same external status 401. -/
theorem get_current_user_spec (secret : String) (now : Int) (token : TokenString) :
    (∀ u i, get_current_user secret now token = .ok ⟨u, i⟩ ↔
        ∃ p, token = .signed p secret ∧ now < p.exp ∧ p.sub = some u ∧ p.user_id = some i
          ∧ p.type = some "access")
    ∧ (∀ p, token = .signed p secret → p.exp ≤ now →
        get_current_user secret now token = .error ⟨401, "Token has expired"⟩)
    ∧ (∀ p k, token = .signed p k → k ≠ secret →
        get_current_user secret now token = .error ⟨401, "Could not validate credentials"⟩)
    ∧ (token = .malformed →
        get_current_user secret now token = .error ⟨401, "Could not validate credentials"⟩)
    ∧ (∀ e, get_current_user secret now token = .error e → e.status_code = 401)
    ∧ (∀ s uid (ttl : Int), ttl ≤ 0 →
        get_current_user secret now (create_access_token s uid secret ttl now) =
          .error ⟨401, "Token has expired"⟩) := by
  refine ⟨?_, ?_, ?_, ?_, ?_, ?_⟩
  · intro u i
    constructor
    · intro h
      rcases token with ⟨p, k⟩ | _
      · by_cases hk : k = secret
        · subst hk
          by_cases hexp : p.exp ≤ now
          · simp [get_current_user, jwt_decode, hexp] at h
          · rcases hsub : p.sub with _ | un
            · simp [get_current_user, jwt_decode, hexp, hsub] at h
            · rcases huid : p.user_id with _ | idv
              · simp [get_current_user, jwt_decode, hexp, hsub, huid] at h
              · by_cases htype : p.type = some "access"
                · simp [get_current_user, jwt_decode, hexp, hsub, huid, htype] at h
                  exact ⟨p, rfl, by omega, by rw [hsub, h.1], by rw [huid, h.2], htype⟩
                · simp [get_current_user, jwt_decode, hexp, hsub, huid, htype] at h
        · simp [get_current_user, jwt_decode, hk] at h
      · simp [get_current_user, jwt_decode] at h
    · rintro ⟨p, rfl, hexp, hsub, huid, htype⟩
      simp [get_current_user, jwt_decode, hsub, huid, htype, Int.not_le.mpr hexp]
  · intro p hp hexp
    subst hp
    simp [get_current_user, jwt_decode, hexp]
  · intro p k hp hk
    subst hp
    simp [get_current_user, jwt_decode, hk]
  · rintro rfl
    rfl
  · intro e he
    rcases token with ⟨p, k⟩ | _
    · by_cases hk : k = secret
      · subst hk
        by_cases hexp : p.exp ≤ now
        · simp [get_current_user, jwt_decode, hexp] at he
          rw [← he]
        · rcases hsub : p.sub with _ | un
          · simp [get_current_user, jwt_decode, hexp, hsub] at he
            rw [← he]
          · rcases huid : p.user_id with _ | idv
            · simp [get_current_user, jwt_decode, hexp, hsub, huid] at he
              rw [← he]
            · by_cases htype : p.type = some "access"
              · simp [get_current_user, jwt_decode, hexp, hsub, huid, htype] at he
              · simp [get_current_user, jwt_decode, hexp, hsub, huid, htype] at he
                rw [← he]
      · simp [get_current_user, jwt_decode, hk] at he
        rw [← he]
    · simp [get_current_user, jwt_decode] at he
      rw [← he]
  · intro s uid ttl httl
    have hexp : now + ttl * 60 ≤ now := by omega
    simp [get_current_user, jwt_decode, create_access_token, hexp]

/-- Witness for `get_current_user_spec`: a token issued with a negative
ttl is already expired and is rejected with the expiry-classified
401. -/
theorem get_current_user_spec_witness :
    get_current_user "secret0" 1000 (create_access_token "alice" 1 "secret0" (-1) 1000) =
      .error ⟨401, "Token has expired"⟩ :=
  (get_current_user_spec "secret0" 1000
      (create_access_token "alice" 1 "secret0" (-1) 1000)).2.2.2.2.2 "alice" 1 (-1) (by decide)

/-- A one-user table for the login witnesses. -/
def db1 : List UserRow := [⟨1, "alice", pwd_hash "Passw0rd1", 0⟩]

/-- Helper: a username violating the length rule or failing the regex
test is rejected by the username validator. -/
theorem validate_username_error (v : String)
    (h : v.length < 3 ∨ 50 < v.length ∨ ¬ username_re_match v.data) :
    ∃ e, validate_username v = .error e := by
  by_cases h1 : v.length < 3
  · exact ⟨"Username must be at least 3 characters long", by simp [validate_username, h1]⟩
  · by_cases h2 : 50 < v.length
    · exact ⟨"Username must be less than 50 characters", by simp [validate_username, h1, h2]⟩
    · by_cases h3 : username_re_match v.data
      · rcases h with a | a | a
        · exact absurd a h1
        · exact absurd a h2
        · exact absurd h3 a
      · exact ⟨"Username can only contain letters, numbers, and underscores",
          by simp [validate_username, h1, h2, h3]⟩

/-- Helper: a password violating the length or composition rule is
rejected by the password validator. -/
theorem validate_password_error (v : String)
    (h : v.length < 8 ∨ 128 < v.length ∨ ¬ v.data.any Char.isUpper
        ∨ ¬ v.data.any Char.isLower ∨ ¬ v.data.any pyDigit) :
    ∃ e, validate_password v = .error e := by
  by_cases h1 : v.length < 8
  · exact ⟨"Password must be at least 8 characters long", by simp [validate_password, h1]⟩
  · by_cases h2 : 128 < v.length
    · exact ⟨"Password must be less than 128 characters", by simp [validate_password, h1, h2]⟩
    · by_cases h3 : v.data.any Char.isUpper
      · by_cases h4 : v.data.any Char.isLower
        · by_cases h5 : v.data.any pyDigit
          · rcases h with a | a | a | a | a
            · exact absurd a h1
            · exact absurd a h2
            · exact absurd h3 a
            · exact absurd h4 a
            · exact absurd h5 a
          · exact ⟨"Password must contain at least one digit",
              by simp [validate_password, h1, h2, h3, h4, h5]⟩
        · exact ⟨"Password must contain at least one lowercase letter",
            by simp [validate_password, h1, h2, h3, h4]⟩
      · exact ⟨"Password must contain at least one uppercase letter",
          by simp [validate_password, h1, h2, h3]⟩

/-- Counterexample to C8: the program enforces laxer rules than the
claim states.  `re.match(r'^[a-zA-Z0-9_]+$', v)` succeeds on the
username "abc\n" because `$` also matches before a final newline, so
signup accepts it — although it contains a character outside
`[A-Za-z0-9_]` — and writes a row; and `\d` matches any Unicode decimal
digit, so a password whose only digit is the Arabic-Indic digit three
(U+0663, not an ASCII digit) is accepted and written as well. -/
theorem create_user_validation_cex :
    ("abc\n".data.all isUsernameChar = false
      ∧ (create_user [] 1 0 "abc\n" "Passw0rd1").1 =
          .ok ⟨"abc\n", "User created successfully"⟩
      ∧ (create_user [] 1 0 "abc\n" "Passw0rd1").2 =
          [⟨1, "abc\n", pwd_hash "Passw0rd1", 0⟩])
    ∧ ("Abcdefg٣".data.any Char.isDigit = false
      ∧ (create_user [] 1 0 "alice123" "Abcdefg٣").1 =
          .ok ⟨"alice123", "User created successfully"⟩
      ∧ (create_user [] 1 0 "alice123" "Abcdefg٣").2 =
          [⟨1, "alice123", pwd_hash "Abcdefg٣", 0⟩]) := by
  exact ⟨⟨by decide, by decide, by decide⟩, by decide, by decide, by decide⟩

/-- C8 (amended): for every username violating the format rule as the
program enforces it (length outside 3-50, or failing
`re.match(r'^[a-zA-Z0-9_]+$', v)`, which also accepts one trailing
newline) and for every password violating the strength rule as enforced
(length outside 8-128, or no uppercase `[A-Z]`, no lowercase `[a-z]`,
or no Unicode decimal digit), `create_user` fails with a validation
error raised before the endpoint body runs, and the stored table is
returned unchanged: no write happens. -/
theorem create_user_validation_no_write (db : List UserRow) (next_id : Nat) (now : Int)
    (username password : String)
    (h : (username.length < 3 ∨ 50 < username.length
          ∨ ¬ username_re_match username.data)
       ∨ (password.length < 8 ∨ 128 < password.length
          ∨ ¬ password.data.any Char.isUpper ∨ ¬ password.data.any Char.isLower
          ∨ ¬ password.data.any pyDigit)) :
    ∃ msg, create_user db next_id now username password =
      (.error (.validationError msg), db) := by
  rcases h with hu | hp
  · obtain ⟨e, he⟩ := validate_username_error username hu
    exact ⟨e, by simp [create_user, User.mk_validated, he]⟩
  · obtain ⟨e, he⟩ := validate_password_error password hp
    rcases hv : validate_username username with e2 | un
    · exact ⟨e2, by simp [create_user, User.mk_validated, hv]⟩
    · exact ⟨e, by simp [create_user, User.mk_validated, hv, he]⟩

/-- Witness for `create_user_validation_no_write`: the username "ab" is
too short, so signup on an empty table fails with a validation error
and inserts nothing. -/
theorem create_user_validation_no_write_witness :
    ∃ msg, create_user [] 1 0 "ab" "Passw0rd1" = (.error (.validationError msg), []) :=
  create_user_validation_no_write [] 1 0 "ab" "Passw0rd1" (Or.inl (Or.inl (by decide)))

/-- Helper: a username accepted by the validator comes out lowercased. -/
theorem validate_username_ok (v s : String) (h : validate_username v = .ok s) :
    s = pyLower v := by
  unfold validate_username at h
  split_ifs at h with h1 h2 h3
  exact (Except.ok.inj h).symm

/-- Helper: the `User` model built from raw input stores the lowercased
username. -/
theorem mk_validated_username (u p : String) (user : User)
    (h : User.mk_validated u p = .ok user) : user.username = pyLower u := by
  unfold User.mk_validated at h
  rcases hv : validate_username u with e | un <;> rw [hv] at h
  · exact absurd h (by simp)
  · rcases hq : validate_password p with e2 | pw <;> rw [hq] at h
    · exact absurd h (by simp)
    · cases Except.ok.inj h
      exact validate_username_ok u un hv

/-- C9: when the stored table keeps usernames normalized (as every
signup-created row does) and some row already holds the
case-insensitively normalized form of the requested username, a
validated `create_user` call fails with the 400 conflict and inserts no
row.  The closed conjunct runs the concrete scenario: signing up
"AliceX1" and then "ALICEX1" leaves the second call in conflict and
exactly one row whose lowercased username is "alicex1". -/
theorem create_user_conflict (db : List UserRow) (next_id : Nat) (now : Int)
    (username password : String) (user : User)
    (hval : User.mk_validated username password = .ok user)
    (hnorm : ∀ r, r ∈ db → r.username = pyLower r.username)
    (hex : ∃ r, r ∈ db ∧ pyLower r.username = pyLower username) :
    (create_user db next_id now username password =
      (.error (.httpError 400 "Username already exists"), db))
    ∧ ((create_user (create_user [] 1 0 "AliceX1" "Passw0rd1").2 2 0 "ALICEX1" "Xy12345z").1 =
        .error (.httpError 400 "Username already exists")
      ∧ ((create_user (create_user [] 1 0 "AliceX1" "Passw0rd1").2 2 0
            "ALICEX1" "Xy12345z").2.filter
            (fun r => pyLower r.username = "alicex1")).length = 1) := by
  refine ⟨?_, by decide, by decide⟩
  obtain ⟨r, hr, hlow⟩ := hex
  have hru : r.username = user.username := by
    rw [hnorm r hr, hlow, mk_validated_username username password user hval]
  have hany : db.any (fun row => row.username = user.username) = true := by
    exact List.any_eq_true.mpr ⟨r, hr, by simp [hru]⟩
  simp [create_user, hval, signup, hany]

/-- Witness for `create_user_conflict`: a direct duplicate signup of
"alice" against `db1` hits the conflict branch. -/
theorem create_user_conflict_witness :
    create_user db1 2 0 "alice" "Xy12345z" =
      (.error (.httpError 400 "Username already exists"), db1) :=
  (create_user_conflict db1 2 0 "alice" "Xy12345z" ⟨"alice", "Xy12345z"⟩ (by decide)
    (by decide)
    ⟨⟨1, "alice", pwd_hash "Passw0rd1", 0⟩, by decide, by decide⟩).1

/-- Helper: one `is_allowed` call preserves the invariant that every
identity holds at most `m` recorded timestamps. -/
theorem is_allowed_length_le (rl : RateLimiter) (uid m w : Nat) (now : Int)
    (h : ∀ u, (rl.requests u).length ≤ m) :
    ∀ u, (((rl.is_allowed uid m w now).2).requests u).length ≤ m := by
  intro u
  simp only [RateLimiter.is_allowed]
  split
  · next hlt =>
    by_cases hu : u = uid
    · subst hu
      simp
      omega
    · simpa [hu] using h u
  · next hge =>
    by_cases hu : u = uid
    · subst hu
      simpa using le_trans (List.length_filter_le _ _) (h u)
    · simpa [hu] using h u

/-- A trace of `is_allowed` calls with a fixed policy `m`, `w`: each
element is an identity together with the clock value at the call. -/
def runCalls (m w : Nat) : List (Nat × Int) → RateLimiter → RateLimiter
  | [], rl => rl
  | (uid, now) :: rest, rl => runCalls m w rest (rl.is_allowed uid m w now).2

/-- Helper: the at-most-`m` invariant is preserved along any trace. -/
theorem runCalls_length_le (m w : Nat) (calls : List (Nat × Int)) :
    ∀ rl : RateLimiter, (∀ u, (rl.requests u).length ≤ m) →
      ∀ u, ((runCalls m w calls rl).requests u).length ≤ m := by
  induction calls with
  | nil => intro rl h u; exact h u
  | cons c rest ih =>
      intro rl h u
      obtain ⟨uid, tnow⟩ := c
      exact ih _ (is_allowed_length_le rl uid m w tnow h) u

/-- C10: with a fixed `max_requests = m`, every `is_allowed` call
preserves the invariant that each identity stores at most `m`
timestamps (the purge shortens the list and the append happens only
below `m`); consequently along every trace of calls from the fresh
limiter no identity ever holds more than `m` recorded timestamps. -/
theorem rate_limiter_bounded (m w : Nat) :
    (∀ (rl : RateLimiter) (uid : Nat) (now : Int),
        (∀ u, (rl.requests u).length ≤ m) →
        ∀ u, (((rl.is_allowed uid m w now).2).requests u).length ≤ m)
    ∧ (∀ (calls : List (Nat × Int)) (u : Nat),
        ((runCalls m w calls RateLimiter.init).requests u).length ≤ m) := by
  refine ⟨fun rl uid now h => is_allowed_length_le rl uid m w now h, fun calls u => ?_⟩
  exact runCalls_length_le m w calls RateLimiter.init (fun _ => by simp [RateLimiter.init]) u

/-- Witness for `rate_limiter_bounded`: from a state where identity 0
holds one timestamp, a call keeps every window within the bound 3. -/
theorem rate_limiter_bounded_witness :
    (((rlStale.is_allowed 0 3 1 0).2).requests 0).length ≤ 3 :=
  (rate_limiter_bounded 3 1).1 rlStale 0 0
    (fun u => by by_cases hu : u = 0 <;> simp [rlStale, hu]) 0
